import Mathlib

/-!
Verification of the zeno frontend client-side data model:
column identity hashing, the metric-range reducer, filter predicate
expressions, result-key addressing and the beeswarm chart spec template.

Definitions are shallow embeddings of the TypeScript source
(`frontend/src/util/util.ts`, the ambient type declarations, and
`frontend/src/report/beeswarm-chart/vegaSpec-beeswarm.ts`).  JavaScript
numbers that can be `Infinity` are modelled by `JSNum`; `null` cells by
`Option ℚ`.
-/

/-- Modelled from the spec: the `ZenoColumnType` enum is imported from
`../zenoservice`, which is not part of the excerpt.  The spec's data model
lists `enum{METADATA, OUTPUT, EMBEDDING, ...}`; as a TypeScript string enum
each member's value is its name. -/
inductive ZenoColumnType where
  | METADATA
  | OUTPUT
  | EMBEDDING
deriving DecidableEq, Repr

/-- The string value of a `ZenoColumnType` member (TypeScript string enum). -/
def ZenoColumnType.toStr : ZenoColumnType → String
  | .METADATA => "METADATA"
  | .OUTPUT => "OUTPUT"
  | .EMBEDDING => "EMBEDDING"

/-- The `ZenoColumn` interface from the ambient type declarations. -/
structure ZenoColumn where
  columnType : ZenoColumnType
  name : String
  model : String
  transform : String
deriving DecidableEq, Repr

/-- `columnHash` from `frontend/src/util/util.ts`:
`(col.columnType === METADATA ? "" : col.columnType) + col.name +
(col.model ? col.model : "")`.  A JavaScript string is falsy exactly when
it is empty. -/
def columnHash (col : ZenoColumn) : String :=
  (if col.columnType = ZenoColumnType.METADATA then "" else col.columnType.toStr)
    ++ col.name
    ++ (if col.model = "" then "" else col.model)

/-- The METADATA-insensitive identity triple, written from the spec's words:
two columns are identical iff their (columnType-normalized, name, model)
triple matches, `columnType` being normalized to the empty string when it
equals METADATA. -/
def specIdentityTriple (c : ZenoColumn) : String × String × String :=
  ((if c.columnType = ZenoColumnType.METADATA then "" else c.columnType.toStr),
    c.name, c.model)

/-- The hash formula written from the spec's words, `(model || "")` being the
JavaScript or-else on strings. -/
def specColumnHashFormula (col : ZenoColumn) : String :=
  (if col.columnType = ZenoColumnType.METADATA then "" else col.columnType.toStr)
    ++ col.name
    ++ (if col.model = "" then "" else col.model)

lemma model_orElse_eq (m : String) : (if m = "" then "" else m) = m := by
  by_cases h : m = "" <;> simp [h]

lemma columnHash_eq_triple_concat (c : ZenoColumn) :
    columnHash c =
      (specIdentityTriple c).1 ++ (specIdentityTriple c).2.1 ++
        (specIdentityTriple c).2.2 := by
  simp [columnHash, specIdentityTriple, model_orElse_eq]

/-- C4: `columnHash` returns exactly the concatenation
`(columnType == METADATA ? "" : columnType) + name + (model || "")`. -/
theorem columnHash_concat_formula (col : ZenoColumn) :
    columnHash col = specColumnHashFormula col := rfl

/-- C2, counterexample: the claim as stated is false on the code.
`{METADATA,"age","",""}` and `{OUTPUT,"age","",""}` do NOT hash identically,
and the hash DOES collide for two columns that are not identical under the
METADATA-insensitive rule: `{OUTPUT,"x","",""}` and `{METADATA,"OUTPUTx","",""}`
have distinct identity triples but equal hashes. -/
theorem columnHash_claim_counterexample :
    columnHash ⟨ZenoColumnType.METADATA, "age", "", ""⟩ ≠
        columnHash ⟨ZenoColumnType.OUTPUT, "age", "", ""⟩ ∧
      columnHash ⟨ZenoColumnType.OUTPUT, "x", "", ""⟩ =
        columnHash ⟨ZenoColumnType.METADATA, "OUTPUTx", "", ""⟩ ∧
      specIdentityTriple ⟨ZenoColumnType.OUTPUT, "x", "", ""⟩ ≠
        specIdentityTriple ⟨ZenoColumnType.METADATA, "OUTPUTx", "", ""⟩ := by
  refine ⟨by decide, by decide, by decide⟩

/-- C2, amended: if two columns match on the (columnType-normalized, name,
model) triple then their hashes are equal, but not conversely (the
concatenation is ambiguous, see the counterexample); and columns that differ
only in a non-empty `model` hash differently:
`{OUTPUT,"x","modelA",""}` vs `{OUTPUT,"x","modelB",""}`. -/
theorem columnHash_identity_amended :
    (∀ c1 c2 : ZenoColumn,
        specIdentityTriple c1 = specIdentityTriple c2 →
          columnHash c1 = columnHash c2) ∧
      columnHash ⟨ZenoColumnType.OUTPUT, "x", "modelA", ""⟩ ≠
        columnHash ⟨ZenoColumnType.OUTPUT, "x", "modelB", ""⟩ := by
  constructor
  · intro c1 c2 h
    rw [columnHash_eq_triple_concat, columnHash_eq_triple_concat, h]
  · decide

/-- C2, witness for the amended theorem: two columns with equal identity
triples but different transforms hash identically. -/
theorem columnHash_identity_amended_witness :
    columnHash ⟨ZenoColumnType.OUTPUT, "acc", "m1", "t1"⟩ =
      columnHash ⟨ZenoColumnType.OUTPUT, "acc", "m1", "t2"⟩ :=
  columnHash_identity_amended.1
    ⟨ZenoColumnType.OUTPUT, "acc", "m1", "t1"⟩
    ⟨ZenoColumnType.OUTPUT, "acc", "m1", "t2"⟩ (by decide)

/-- C3, counterexample: two METADATA columns with equal names but different
models hash differently — the model field is NOT ignored by `columnHash`. -/
theorem metadata_hash_model_counterexample :
    columnHash ⟨ZenoColumnType.METADATA, "age", "modelA", ""⟩ ≠
      columnHash ⟨ZenoColumnType.METADATA, "age", "modelB", ""⟩ := by
  decide

/-- C3, amended: two METADATA columns with equal names and equal models hash
identically regardless of their transform fields (only the transform is
ignored; the model still enters the hash). -/
theorem metadata_hash_ignores_transform (c1 c2 : ZenoColumn)
    (h1 : c1.columnType = ZenoColumnType.METADATA)
    (h2 : c2.columnType = ZenoColumnType.METADATA)
    (hname : c1.name = c2.name) (hmodel : c1.model = c2.model) :
    columnHash c1 = columnHash c2 := by
  simp [columnHash, h1, h2, hname, hmodel]

/-- C3, witness: two METADATA "age" columns with model "m" and transforms
"sq" and "" hash identically. -/
theorem metadata_hash_ignores_transform_witness :
    columnHash ⟨ZenoColumnType.METADATA, "age", "m", "sq"⟩ =
      columnHash ⟨ZenoColumnType.METADATA, "age", "m", ""⟩ :=
  metadata_hash_ignores_transform
    ⟨ZenoColumnType.METADATA, "age", "m", "sq"⟩
    ⟨ZenoColumnType.METADATA, "age", "m", ""⟩
    (by decide) (by decide) (by decide) (by decide)

/-- A JavaScript number that may be `Infinity` or `-Infinity`; finite values
are rationals. -/
inductive JSNum where
  | num : ℚ → JSNum
  | posInf
  | negInf
deriving DecidableEq, Repr

/-- `Math.min` on two JavaScript numbers (no `NaN` arises here). -/
def jsMin : JSNum → JSNum → JSNum
  | .negInf, _ => .negInf
  | _, .negInf => .negInf
  | .posInf, b => b
  | a, .posInf => a
  | .num a, .num b => .num (min a b)

/-- `Math.max` on two JavaScript numbers (no `NaN` arises here). -/
def jsMax : JSNum → JSNum → JSNum
  | .posInf, _ => .posInf
  | _, .posInf => .posInf
  | .negInf, b => b
  | a, .negInf => a
  | .num a, .num b => .num (max a b)

/-- JavaScript `ToNumber` coercion applied by `Math.min`/`Math.max` to a
`number|null` cell: `null` coerces to `0`. -/
def cellToNumber : Option ℚ → JSNum
  | some q => .num q
  | none => .num 0

/-- The body of the nested `forEach` in `getMetricRange`: updates
`(range[0], range[1], allNull)` with one cell. -/
def metricRangeStep (st : JSNum × JSNum × Bool) (n : Option ℚ) :
    JSNum × JSNum × Bool :=
  (jsMin st.1 (cellToNumber n), jsMax st.2.1 (cellToNumber n),
    if n.isSome then false else st.2.2)

/-- `getMetricRange` from `frontend/src/util/util.ts`: starts from
`[Infinity, -Infinity]`, folds every cell of every row through
`Math.min`/`Math.max` while tracking `allNull`, and returns the
`[Infinity, -Infinity]` sentinel when every cell was `null`. -/
def getMetricRange (res : List (List (Option ℚ))) : JSNum × JSNum :=
  let st := res.foldl (fun st arr => arr.foldl metricRangeStep st)
    (JSNum.posInf, JSNum.negInf, true)
  if st.2.2 then (JSNum.posInf, JSNum.negInf) else (st.1, st.2.1)

/-- C1: at the spec's own example `[[1,null,3],[null,null,null]]` the code
returns `[0,3]`, not `[1,3]`: `Math.min(range[0], n)` coerces a `null` cell
to `0` instead of ignoring it, because the `range` updates sit outside the
`if (n !== null)` guard. -/
theorem getMetricRange_null_coerced_to_zero :
    getMetricRange [[some 1, none, some 3], [none, none, none]] =
      (JSNum.num 0, JSNum.num 3) := by
  decide

lemma metricRange_foldl_allNull (rows : List (List (Option ℚ)))
    (h : ∀ row ∈ rows, ∀ c ∈ row, c = none) (st : JSNum × JSNum × Bool) :
    (rows.foldl (fun st arr => arr.foldl metricRangeStep st) st).2.2 = st.2.2 := by
  induction rows generalizing st with
  | nil => rfl
  | cons row rest ih =>
    have hrow : ∀ c ∈ row, c = none := h row (List.mem_cons_self row rest)
    have hrest : ∀ r ∈ rest, ∀ c ∈ r, c = none := fun r hr => h r (List.mem_cons_of_mem _ hr)
    rw [List.foldl_cons, ih hrest]
    clear ih hrest h
    induction row generalizing st with
    | nil => rfl
    | cons c cs ihc =>
      have hc : c = none := hrow c (List.mem_cons_self c cs)
      have hcs : ∀ x ∈ cs, x = none := fun x hx => hrow x (List.mem_cons_of_mem _ hx)
      rw [List.foldl_cons, ihc _ hcs]
      simp [metricRangeStep, hc]

/-- C5: when every cell of the matrix is `null`, `getMetricRange` returns the
explicit empty sentinel `[Infinity, -Infinity]`. -/
theorem getMetricRange_all_null_sentinel (res : List (List (Option ℚ)))
    (h : ∀ row ∈ res, ∀ c ∈ row, c = none) :
    getMetricRange res = (JSNum.posInf, JSNum.negInf) := by
  have hall := metricRange_foldl_allNull res h (JSNum.posInf, JSNum.negInf, true)
  simp [getMetricRange, hall]

/-- C5, witness: `getMetricRange [[null,null]] = [Infinity,-Infinity]`. -/
theorem getMetricRange_all_null_sentinel_witness :
    getMetricRange [[none, none]] = (JSNum.posInf, JSNum.negInf) :=
  getMetricRange_all_null_sentinel [[none, none]] (by decide)

/-- The error taxonomy of the filter predicate engine (spec §7). -/
inductive FilterError where
  | InvalidOperation
  | UnbalancedGroup
deriving DecidableEq, Repr

/-- The `FilterPredicate` interface from the ambient type declarations:
`operation` is one of `>,<,==,!=,>=,<=`; `join` is `AND`, `OR` or empty;
`groupIndicator` is optionally `start` or `end`. -/
structure FilterPredicate where
  column : ZenoColumn
  operation : String
  value : String
  join : String
  groupIndicator : Option String

/-- A dataset row, addressable by column via the column identity hash
(spec §6). -/
def Row : Type := String → String

/-- The numeric value of the digit characters `cs`, read left to right. -/
def digitsVal (cs : List Char) : Nat :=
  cs.foldl (fun n c => n * 10 + (c.toNat - 48)) 0

/-- Modelled from the spec: parsing a decimal numeric string, so that
numeric strings are compared by value, not lexically (spec §4.2); the
parsing code itself is not part of the excerpt. -/
def parseDecimal (s : String) : Option ℚ :=
  let signed :=
    match s.data with
    | '-' :: rest => (true, rest)
    | cs => (false, cs)
  let intPart := signed.2.takeWhile Char.isDigit
  let rest := signed.2.dropWhile Char.isDigit
  if intPart.isEmpty then none
  else
    let mag? : Option ℚ :=
      match rest with
      | [] => some (digitsVal intPart : ℚ)
      | '.' :: fracPart =>
        if fracPart.isEmpty ∨ ¬ fracPart.all Char.isDigit then none
        else some ((digitsVal intPart : ℚ) +
          (digitsVal fracPart : ℚ) / ((10 : ℚ) ^ fracPart.length))
      | _ => none
    mag?.map (fun v => if signed.1 then -v else v)

/-- Value-aware strict comparison: numeric strings compare by numeric value,
all others lexically. -/
def valueLt (a b : String) : Bool :=
  match parseDecimal a, parseDecimal b with
  | some x, some y => decide (x < y)
  | _, _ => decide (a < b)

/-- Value-aware equality: numeric strings compare by numeric value, all
others as strings. -/
def valueEq (a b : String) : Bool :=
  match parseDecimal a, parseDecimal b with
  | some x, some y => decide (x = y)
  | _, _ => decide (a = b)

/-- Modelled from the spec: applying one of the six recognized comparison
symbols to the row value and the predicate value; any other symbol fails
with `InvalidOperation` (spec §4.2, §7). -/
def applyOperation (op a b : String) : Except FilterError Bool :=
  if op = ">" then .ok (valueLt b a)
  else if op = "<" then .ok (valueLt a b)
  else if op = "==" then .ok (valueEq a b)
  else if op = "!=" then .ok (!valueEq a b)
  else if op = ">=" then .ok (!valueLt a b)
  else if op = "<=" then .ok (!valueLt b a)
  else .error .InvalidOperation

/-- Modelled from the spec: `evaluatePredicate(predicate, row)` applies
`operation` to `row[column]` vs `value` (spec §4.2); the function itself is
not part of the excerpt. -/
def evaluatePredicate (p : FilterPredicate) (row : Row) :
    Except FilterError Bool :=
  applyOperation p.operation (row (columnHash p.column)) p.value

/-- Folding one predicate result `v` into the accumulator of the current
group context: the first predicate of a context (`acc = none`) has no left
operand, so its `join` is ignored; afterwards `OR` disjoins and `AND`
conjoins (an empty `join` behaves as the default `AND`). -/
def joinCombine (acc : Option Bool) (j : String) (v : Bool) : Bool :=
  match acc with
  | none => v
  | some a => if j = "OR" then a || v else a && v

/-- Modelled from the spec: the left-to-right fold of
`evaluateExpression` with a stack of open groups — on `groupIndicator=start`
the fold pushes the enclosing accumulator together with the pending join of
the predicate that opened the group, on `end` it pops and combines; an `end`
with no open group, or a leftover open group, fails with `UnbalancedGroup`
(spec §4.2). -/
def evalExprAux (row : Row) :
    List FilterPredicate → List (Option Bool × String) → Option Bool →
      Except FilterError Bool
  | [], [], acc => .ok (acc.getD true)
  | [], _ :: _, _ => .error .UnbalancedGroup
  | p :: rest, stack, acc =>
    match evaluatePredicate p row with
    | .error e => .error e
    | .ok v =>
      if p.groupIndicator = some "start" then
        evalExprAux row rest ((acc, p.join) :: stack) (some v)
      else if p.groupIndicator = some "end" then
        match stack with
        | [] => .error .UnbalancedGroup
        | (pacc, pjoin) :: stackRest =>
          evalExprAux row rest stackRest
            (some (joinCombine pacc pjoin (joinCombine acc p.join v)))
      else
        evalExprAux row rest stack (some (joinCombine acc p.join v))

/-- Modelled from the spec: `evaluateExpression(predicates[], row)`, the
left-to-right fold with explicit grouping; the function itself is not part
of the excerpt (spec §4.2). -/
def evaluateExpression (preds : List FilterPredicate) (row : Row) :
    Except FilterError Bool :=
  evalExprAux row preds [] none

/-- C7: the empty predicate list matches every row. -/
theorem evaluateExpression_nil (row : Row) :
    evaluateExpression [] row = .ok true := rfl

/-- C6: for every row, the predicate sequence
`[A(join=""), B(join=OR, start), C(join=AND), D(join=AND, end)]` evaluates to
`A OR (B AND C AND D)`; and a sequence with an unmatched `start` (a single
predicate `P` opening a group that never closes) fails with
`UnbalancedGroup` rather than returning a boolean. -/
theorem evaluateExpression_grouping (row : Row) (A B C D P : FilterPredicate)
    (a b c d v : Bool)
    (hAj : A.join = "") (hAg : A.groupIndicator = none)
    (hBj : B.join = "OR") (hBg : B.groupIndicator = some "start")
    (hCj : C.join = "AND") (hCg : C.groupIndicator = none)
    (hDj : D.join = "AND") (hDg : D.groupIndicator = some "end")
    (hA : evaluatePredicate A row = .ok a)
    (hB : evaluatePredicate B row = .ok b)
    (hC : evaluatePredicate C row = .ok c)
    (hD : evaluatePredicate D row = .ok d)
    (hPg : P.groupIndicator = some "start")
    (hP : evaluatePredicate P row = .ok v) :
    evaluateExpression [A, B, C, D] row = .ok (a || (b && c && d)) ∧
      evaluateExpression [P] row = .error .UnbalancedGroup := by
  constructor
  · simp [evaluateExpression, evalExprAux, hA, hB, hC, hD, hAj, hAg, hBj, hBg,
      hCj, hCg, hDj, hDg, joinCombine, Bool.and_assoc]
  · simp [evaluateExpression, evalExprAux, hP, hPg]

/-- A sample metadata column named `age`; its identity hash is `"age"`. -/
def ageColumn : ZenoColumn := ⟨ZenoColumnType.METADATA, "age", "", ""⟩

/-- A sample metadata column named `score`; its identity hash is `"score"`. -/
def scoreColumn : ZenoColumn := ⟨ZenoColumnType.METADATA, "score", "", ""⟩

/-- A sample row with `age = 10` and `score = 5`. -/
def sampleRow : Row := fun k => if k = "age" then "10" else if k = "score" then "5" else ""

/-- C6, witness: on `sampleRow` the sequence
`[age>3, (score<3 OR-start, age==10 AND, age<=9 AND-end)]` evaluates to
`true OR (false AND true AND false) = true`, and the single unmatched-start
predicate fails with `UnbalancedGroup`. -/
theorem evaluateExpression_grouping_witness :
    evaluateExpression
        [⟨ageColumn, ">", "3", "", none⟩,
         ⟨scoreColumn, "<", "3", "OR", some "start"⟩,
         ⟨ageColumn, "==", "10", "AND", none⟩,
         ⟨ageColumn, "<=", "9", "AND", some "end"⟩] sampleRow =
      .ok (true || (false && true && false)) ∧
      evaluateExpression [⟨scoreColumn, "<", "3", "OR", some "start"⟩] sampleRow =
        .error .UnbalancedGroup :=
  evaluateExpression_grouping sampleRow
    ⟨ageColumn, ">", "3", "", none⟩
    ⟨scoreColumn, "<", "3", "OR", some "start"⟩
    ⟨ageColumn, "==", "10", "AND", none⟩
    ⟨ageColumn, "<=", "9", "AND", some "end"⟩
    ⟨scoreColumn, "<", "3", "OR", some "start"⟩
    true false true false false
    rfl rfl rfl rfl rfl rfl rfl rfl rfl rfl rfl rfl rfl rfl

/-- The `ResultKey` interface from the ambient type declarations: the
(slice, metric, transform, model) 4-tuple addressing one computed result. -/
structure ResultKey where
  slice : String
  metric : String
  transform : String
  model : String
deriving DecidableEq, Repr

/-- Modelled from the spec: `toKey(resultKey)` is a stable delimiter-joined
serialization of the 4-tuple; the function itself is not part of the
excerpt.  The delimiter is `.`, which the spec guarantees absent from each
field (spec §4.4). -/
def toKey (k : ResultKey) : String :=
  k.slice ++ "." ++ k.metric ++ "." ++ k.transform ++ "." ++ k.model

/-- The spec's delimiter-absence guarantee for one `ResultKey`: no field
contains the delimiter character. -/
def delimFree (k : ResultKey) : Prop :=
  '.' ∉ k.slice.data ∧ '.' ∉ k.metric.data ∧
    '.' ∉ k.transform.data ∧ '.' ∉ k.model.data

instance : DecidablePred delimFree := fun k => by
  unfold delimFree
  infer_instance

lemma append_cons_inj {α : Type} {c : α} :
    ∀ {a a' b b' : List α}, c ∉ a → c ∉ a' →
      a ++ c :: b = a' ++ c :: b' → a = a' ∧ b = b' := by
  intro a
  induction a with
  | nil =>
    intro a' b b' _ ha' h
    cases a' with
    | nil => simpa using h
    | cons x xs =>
      simp only [List.nil_append, List.cons_append, List.cons.injEq] at h
      exact absurd (h.1 ▸ List.mem_cons_self x xs) ha'
  | cons x xs ih =>
    intro a' b b' ha ha' h
    cases a' with
    | nil =>
      simp only [List.cons_append, List.nil_append, List.cons.injEq] at h
      exact absurd (h.1 ▸ List.mem_cons_self x xs) (h.1 ▸ ha)
    | cons y ys =>
      simp only [List.cons_append, List.cons.injEq] at h
      have hxs : c ∉ xs := fun hm => ha (List.mem_cons_of_mem _ hm)
      have hys : c ∉ ys := fun hm => ha' (List.mem_cons_of_mem _ hm)
      obtain ⟨h1, h2⟩ := ih hxs hys h.2
      exact ⟨by rw [h.1, h1], h2⟩

lemma toKey_data (k : ResultKey) :
    (toKey k).data =
      k.slice.data ++ '.' ::
        (k.metric.data ++ '.' :: (k.transform.data ++ '.' :: k.model.data)) := by
  simp [toKey, String.data_append]

/-- C8: for all result keys whose fields are free of the delimiter (the
spec's stated guarantee), `toKey k1 = toKey k2` iff the two 4-tuples agree
field-for-field by exact string equality; in particular two such keys
differing in any field, hence in exactly one field, never produce the same
serialized key. -/
theorem toKey_inj_iff (k1 k2 : ResultKey)
    (h1 : delimFree k1) (h2 : delimFree k2) :
    toKey k1 = toKey k2 ↔
      k1.slice = k2.slice ∧ k1.metric = k2.metric ∧
        k1.transform = k2.transform ∧ k1.model = k2.model := by
  constructor
  · intro h
    have hd : (toKey k1).data = (toKey k2).data := by rw [h]
    rw [toKey_data, toKey_data] at hd
    obtain ⟨hs, hd⟩ := append_cons_inj h1.1 h2.1 hd
    obtain ⟨hm, hd⟩ := append_cons_inj h1.2.1 h2.2.1 hd
    obtain ⟨ht, hmo⟩ := append_cons_inj h1.2.2.1 h2.2.2.1 hd
    exact ⟨String.ext hs, String.ext hm, String.ext ht, String.ext hmo⟩
  · intro ⟨hs, hm, ht, hmo⟩
    simp [toKey, hs, hm, ht, hmo]

/-- C8, witness: two concrete delimiter-free keys differing in exactly the
model field serialize to different keys, and a key equals itself. -/
theorem toKey_inj_iff_witness :
    toKey ⟨"s1", "accuracy", "", "modelA"⟩ ≠
        toKey ⟨"s1", "accuracy", "", "modelB"⟩ ∧
      toKey ⟨"s1", "accuracy", "", "modelA"⟩ =
        toKey ⟨"s1", "accuracy", "", "modelA"⟩ := by
  constructor
  · intro h
    have := (toKey_inj_iff ⟨"s1", "accuracy", "", "modelA"⟩
      ⟨"s1", "accuracy", "", "modelB"⟩ (by decide) (by decide)).mp h
    simp at this
  · exact (toKey_inj_iff ⟨"s1", "accuracy", "", "modelA"⟩
      ⟨"s1", "accuracy", "", "modelA"⟩ (by decide) (by decide)).mpr
      ⟨rfl, rfl, rfl, rfl⟩

/-- A JSON-like value, enough to embed the Vega specification object of
`vegaSpec-beeswarm.ts`. -/
inductive JsonVal where
  | str : String → JsonVal
  | num : ℚ → JsonVal
  | bool : Bool → JsonVal
  | arr : List JsonVal → JsonVal
  | obj : List (String × JsonVal) → JsonVal

/-- Looks a key up in a JSON object's field list. -/
def getField (fields : List (String × JsonVal)) (k : String) : Option JsonVal :=
  (fields.find? (fun p => p.1 = k)).map Prod.snd

/-- Rewrites the value stored at a key of a JSON object's field list. -/
def setField (fields : List (String × JsonVal)) (k : String)
    (f : JsonVal → JsonVal) : List (String × JsonVal) :=
  fields.map (fun p => if p.1 = k then (p.1, f p.2) else p)

/-- The `const spec = { ... }` literal of `vegaSpec-beeswarm.ts`, before the
`spec.axes[0].title = metric` assignment: the axis title is still `""`. -/
def beeswarmTemplate : JsonVal := .obj
  [("$schema", .str "https://vega.github.io/schema/vega/v5.json"),
   ("description", .str
     "A beeswarm chart example that uses a force-directed layout to group items by category."),
   ("width", .num 600),
   ("height", .num 100),
   ("padding", .obj
     [("left", .num 5), ("right", .num 5), ("top", .num 0), ("bottom", .num 20)]),
   ("autosize", .str "pad"),
   ("signals", .arr
     [.obj [("name", .str "cx"), ("update", .str "width / 2")],
      .obj [("name", .str "cy"), ("update", .str "height / 2")],
      .obj [("name", .str "radius"), ("value", .num 10)],
      .obj [("name", .str "collide"), ("value", .num 1)],
      .obj [("name", .str "gravityX"), ("value", .num (2/10))],
      .obj [("name", .str "gravityY"), ("value", .num (1/10))],
      .obj [("name", .str "static"), ("value", .bool true)]]),
   ("data", .arr [.obj [("name", .str "table")]]),
   ("scales", .arr
     [.obj
       [("name", .str "xscale"),
        ("domain", .obj [("data", .str "table"), ("field", .str "metric")]),
        ("range", .str "width"),
        ("nice", .bool true),
        ("zero", .bool false)],
      .obj
       [("name", .str "sizescale"),
        ("domain", .obj [("data", .str "table"), ("field", .str "size")]),
        ("range", .arr [.num 80, .num 800])]]),
   ("axes", .arr
     [.obj
       [("title", .str ""),
        ("orient", .str "bottom"),
        ("scale", .str "xscale")]]),
   ("marks", .arr
     [.obj
       [("name", .str "nodes"),
        ("type", .str "symbol"),
        ("from", .obj [("data", .str "table")]),
        ("encode", .obj
          [("enter", .obj
            [("fill", .obj [("value", .str "purple")]),
             ("xfocus", .obj
               [("scale", .str "xscale"), ("field", .str "metric"),
                ("band", .num (5/10))]),
             ("yfocus", .obj [("signal", .str "cy")])]),
           ("update", .obj
            [("size", .obj [("scale", .str "sizescale"), ("field", .str "size")]),
             ("stroke", .obj [("value", .str "white")]),
             ("strokeWidth", .obj [("value", .num 1)]),
             ("zindex", .obj [("value", .num 0)])]),
           ("hover", .obj
            [("stroke", .obj [("value", .str "purple")]),
             ("strokeWidth", .obj [("value", .num 3)]),
             ("zindex", .obj [("value", .num 1)]),
             ("tooltip", .obj
               [("signal", .str
                 "\x7b\x27name\x27: datum.sli_name, \x27size\x27: datum.size, \x27metric\x27: datum.metric\x7d")])])]),
        ("transform", .arr
          [.obj
            [("type", .str "force"),
             ("iterations", .num 300),
             ("static", .obj [("signal", .str "static")]),
             ("forces", .arr
               [.obj
                 [("force", .str "collide"),
                  ("iterations", .obj [("signal", .str "collide")]),
                  ("radius", .obj [("signal", .str "radius")])],
                .obj
                 [("force", .str "x"), ("x", .str "xfocus"),
                  ("strength", .obj [("signal", .str "gravityX")])],
                .obj
                 [("force", .str "y"), ("y", .str "yfocus"),
                  ("strength", .obj [("signal", .str "gravityY")])]])]])]])]

/-- The `spec.axes[0].title = metric` assignment: replaces the `title` field
of the first element of the `axes` array. -/
def setAxisTitle (spec : JsonVal) (title : String) : JsonVal :=
  match spec with
  | .obj fields => .obj (setField fields "axes" (fun axes =>
      match axes with
      | .arr (first :: rest) =>
        .arr ((match first with
          | .obj afields => JsonVal.obj (setField afields "title"
              (fun _ => .str title))
          | other => other) :: rest)
      | other => other))
  | other => other

/-- Reads `axes[0].title` back out of a spec object. -/
def axisTitle (spec : JsonVal) : Option JsonVal :=
  match spec with
  | .obj fields =>
    match getField fields "axes" with
    | some (.arr (.obj afields :: _)) => getField afields "title"
    | _ => none
  | _ => none

/-- `generateSpec` from `vegaSpec-beeswarm.ts`: builds the constant template
and then assigns `spec.axes[0].title = metric`. -/
def generateSpec (metric : String) : JsonVal :=
  setAxisTitle beeswarmTemplate metric

/-- C10: the bottom axis title of `generateSpec m` is exactly `m`, and the
output depends on the metric argument only through that title: overwriting
the title of `generateSpec m1` with `m2` yields exactly `generateSpec m2`,
for all `m1`, `m2`. -/
theorem generateSpec_title_only (m1 m2 : String) :
    axisTitle (generateSpec m1) = some (JsonVal.str m1) ∧
      setAxisTitle (generateSpec m1) m2 = generateSpec m2 := by
  exact ⟨rfl, rfl⟩
